import Mathlib

/-!
# res_redis: the dialplan function REDIS() over a Redis client handle

A shallow embedding of `res_redis.c`.

* A C string is the Lean `String` of its bytes before the terminating NUL;
  a `char *` that may be NULL is an `Option String`.
* The file-scope variables `redis`, `keyprefix`, `redisttl` are the record
  `Globals`, threaded explicitly.
* hiredis, the configuration reader and the function registry are outside the
  file: they enter as the oracle records `Hiredis` and `Host`.
* Every call of `redisCommand` and of `redisConnect` is appended to a log, so
  that "no command is issued" and "the key on the wire" are statements about
  the log.
* A read through a NULL pointer ends the run (`Exit.nullDeref`).
* A `sprintf` of the composed key past the `REDIS_MAX_KEY` bytes allocated for
  it ends the run as well (`Exit.keyOverrun`, with the `overrun` flag set):
  what the program does after it is undefined, so nothing after it is modelled.
  At load time the `overrun` flag of `LoadOutcome` marks the same event for
  `server[128]` and `keyprefix[65]`.
* `ast_malloc` and `ast_asprintf` are taken to succeed.
-/

namespace ResRedis

/-! ## Constants -/

/-- Name of the configuration file (`#define CONFIG_FILE_NAME`). -/
def CONFIG_FILE_NAME : String := "res_redis.conf"

/-- Size of the buffer allocated for the composed key (`#define REDIS_MAX_KEY`). -/
def REDIS_MAX_KEY : Nat := 512

/-- Result code of a call without a key (`#define REDIS_ARGUMENT_NEEDED`). -/
def REDIS_ARGUMENT_NEEDED : Int := 127

/-- Result code of hiredis for success. -/
def REDIS_OK : Int := 0

/-! ## The channel -/

/-- Channel variables of a `struct ast_channel`: name and value, newest first. -/
abbrev ast_channel := List (String × String)

/-- Host routine `pbx_builtin_setvar_helper`: bind `name` to `value`,
replacing an older binding. -/
def pbx_builtin_setvar_helper (chan : ast_channel) (name value : String) : ast_channel :=
  (name, value) :: chan.filter (fun b => b.1 != name)

/-- Host routine `pbx_builtin_getvar_helper`: the value bound to `name`, if any. -/
def pbx_builtin_getvar_helper (chan : ast_channel) (name : String) : Option String :=
  (chan.find? (fun b => b.1 == name)).map (fun b => b.2)

/-- Source lines 118-122: print `result` with `%d` and store it in `REDISRESULT`. -/
def redis_set_operation_result (chan : ast_channel) (result : Int) : ast_channel :=
  let numresult := toString result
  pbx_builtin_setvar_helper chan "REDISRESULT" numresult

/-! ## The client library -/

/-- The one field of a `redisReply` the module reads: `str`, NULL for a nil reply. -/
structure redisReply where
  str : Option String
  deriving DecidableEq, Repr

/-- The hiredis interface used at call time, over a connection state `σ`:
`err` is the field `redis->err`; `redisCommand` takes the argument vector the
format string expands to and gives the new connection state and the reply
pointer (NULL is `none`). -/
structure Hiredis (σ : Type) where
  err : σ → Int
  redisCommand : σ → List String → σ × Option redisReply

/-- The file-scope variables (source lines 99-101). -/
structure Globals (σ : Type) where
  redis : Option σ
  keyprefix : String
  redisttl : Nat

/-- How a call ends: it returns, it reads through a NULL pointer, or `sprintf`
writes the composed key past the end of its allocation. -/
inductive Exit where
  | returned (ret : Int)
  | nullDeref
  | keyOverrun
  deriving DecidableEq, Repr

/-- State when `redis_write` ends: the channel, the handle, the commands handed
to `redisCommand` (oldest first), whether `sprintf` wrote past the key buffer,
and how the call ended. -/
structure WriteOutcome (σ : Type) where
  chan : ast_channel
  redis : Option σ
  sent : List (List String)
  overrun : Bool
  exit : Exit

/-- State when `redis_read` ends: as for a write, with the content of the output buffer. -/
structure ReadOutcome (σ : Type) where
  chan : ast_channel
  redis : Option σ
  sent : List (List String)
  overrun : Bool
  buffer : String
  exit : Exit

/-- Host routine `ast_strlen_zero`: the pointer is NULL or its first byte is NUL. -/
def ast_strlen_zero (s : Option String) : Bool :=
  match s with
  | none => true
  | some s => decide (s = "")

/-- Host routine `ast_copy_string (dst, src, size)`: copy bytes of `src` while
`size` lasts, then step back one byte if `size` ran out and store the
terminator; the content of `dst` afterwards. -/
def ast_copy_string (src : String) (size : Nat) : String :=
  String.mk (src.data.take (size - 1))

/-- The bytes `sprintf (key, "%s%s", keyprefix, parse)` produces. -/
def composeKey (pre parse : String) : String :=
  pre ++ parse

/-- Whether a string and its terminator exceed a destination of `cap` bytes. -/
def overruns (cap : Nat) (s : String) : Bool :=
  decide (cap < s.length + 1)

/-! ## The read path and the write path -/

/-- Source lines 180-207. The undeclared `c` of the source is read as the
module handle `redis`, the only connection the file has. -/
def redis_read {σ : Type} (lib : Hiredis σ) (g : Globals σ) (chan : ast_channel)
    (parse : Option String) (buflen : Nat) : ReadOutcome σ :=
  -- buffer[0] = 0
  let buffer := ""
  if ast_strlen_zero parse then
    { chan := redis_set_operation_result chan REDIS_ARGUMENT_NEEDED, redis := g.redis,
      sent := [], overrun := false, buffer := buffer, exit := .returned 0 }
  else
    let key := composeKey (Globals.keyprefix g) (parse.getD "")
    if overruns REDIS_MAX_KEY key then
      -- sprintf(key, ...) writes past the REDIS_MAX_KEY bytes of ast_malloc
      { chan := chan, redis := g.redis, sent := [], overrun := true, buffer := buffer,
        exit := .keyOverrun }
    else
      match g.redis with
      | none =>
        { chan := chan, redis := none, sent := [], overrun := false, buffer := buffer,
          exit := .nullDeref }
      | some h =>
        let cmd := ["GET", key]
        let (h1, reply) := lib.redisCommand h cmd
        if lib.err h1 ≠ 0 then
          { chan := redis_set_operation_result chan (lib.err h1), redis := some h1,
            sent := [cmd], overrun := false, buffer := buffer, exit := .returned 0 }
        else
          -- ast_copy_string(buffer, reply->str, buflen) reads *reply and *reply->str
          match reply.bind (fun r => r.str) with
          | none =>
            { chan := chan, redis := some h1, sent := [cmd], overrun := false,
              buffer := buffer, exit := .nullDeref }
          | some s =>
            { chan := redis_set_operation_result chan REDIS_OK, redis := some h1,
              sent := [cmd], overrun := false, buffer := ast_copy_string s buflen,
              exit := .returned 0 }

/-- Source lines 209-242. -/
def redis_write {σ : Type} (lib : Hiredis σ) (g : Globals σ) (chan : ast_channel)
    (parse : Option String) (value : String) : WriteOutcome σ :=
  let chan0 := redis_set_operation_result chan REDIS_OK
  if ast_strlen_zero parse then
    { chan := redis_set_operation_result chan0 REDIS_ARGUMENT_NEEDED, redis := g.redis,
      sent := [], overrun := false, exit := .returned 0 }
  else
    let key := composeKey (Globals.keyprefix g) (parse.getD "")
    if overruns REDIS_MAX_KEY key then
      -- sprintf(key, ...) writes past the REDIS_MAX_KEY bytes of ast_malloc
      { chan := chan0, redis := g.redis, sent := [], overrun := true, exit := .keyOverrun }
    else
      match g.redis with
      | none =>
        { chan := chan0, redis := none, sent := [], overrun := false, exit := .nullDeref }
      | some h =>
        let cmd :=
          if g.redisttl > 0 then ["SET", key, value, "EX", toString g.redisttl]
          else ["SET", key, value]
        let (h1, _reply) := lib.redisCommand h cmd
        if lib.err h1 ≠ 0 then
          { chan := redis_set_operation_result chan0 (lib.err h1), redis := some h1,
            sent := [cmd], overrun := false, exit := .returned 0 }
        else
          { chan := chan0, redis := some h1, sent := [cmd], overrun := false,
            exit := .returned 0 }

/-- The argument vector `redis_write` hands to `redisCommand` (source lines 228-232). -/
def setCommand (p k v : String) (t : Nat) : List String :=
  if t > 0 then ["SET", p ++ k, v, "EX", toString t] else ["SET", p ++ k, v]

/-! ## Loading -/

/-- C library predicate `isspace` in the C locale. -/
def isspace (c : Char) : Bool :=
  c.toNat == 32 || (9 ≤ c.toNat && c.toNat ≤ 13)

/-- Value of the leading run of decimal digits, continuing from `acc`. -/
def digitsValue (acc : Nat) : List Char → Nat
  | [] => acc
  | c :: cs => if c.isDigit then digitsValue (10 * acc + (c.toNat - 48)) cs else acc

/-- Two's complement reading of the low 32 bits: conversion to `int`. -/
def toInt32 (x : Int) : Int :=
  (x + 2147483648) % 4294967296 - 2147483648

/-- Conversion of an `int` to `unsigned int`. -/
def toUInt32 (x : Int) : Nat :=
  (x % 4294967296).toNat

/-- C library `strtol` in base 10 with a 64-bit `long`: blanks, an optional
sign, then digits; out-of-range values are clamped. -/
def strtol (s : String) : Int :=
  match s.data.dropWhile isspace with
  | [] => 0
  | c :: cs =>
    if c.toNat == 45 then max (-9223372036854775808) (-(digitsValue 0 cs : Int))
    else if c.toNat == 43 then min 9223372036854775807 (digitsValue 0 cs : Int)
    else min 9223372036854775807 (digitsValue 0 (c :: cs) : Int)

/-- C library `atoi`: `(int) strtol (s, NULL, 10)`. -/
def atoi (s : String) : Int :=
  toInt32 (strtol s)

/-- A loaded `struct ast_config`, seen through the host routine
`ast_variable_retrieve (cfg, category, variable)`: the value, or NULL. -/
structure ast_config where
  ast_variable_retrieve : String → String → Option String

/-- What `ast_config_load` gives for a file name: NULL, the marker
`CONFIG_STATUS_FILEINVALID`, or a configuration. -/
inductive ConfigLoad where
  | missing
  | invalid
  | loaded (cfg : ast_config)

/-- The host and library interface used at load time. `redisConnect` gives NULL
(`none`) or a handle; `ast_custom_function_register` gives the host status for
registering the function of the given name. -/
structure Host (σ : Type) where
  hiredis : Hiredis σ
  ast_config_load : String → ConfigLoad
  redisConnect : String → Int → Option σ
  ast_custom_function_register : String → Int

/-- State after `redis_load_config`: the returned status, the file-scope
variables, the calls of `redisConnect` (host and port, oldest first), and
whether a `sprintf` wrote past `server[128]` or `keyprefix[65]`; the other
fields describe the run only when that flag is false. -/
structure LoadOutcome (σ : Type) where
  ret : Int
  globals : Globals σ
  connects : List (String × Int)
  overrun : Bool

/-- Source lines 124-178. -/
def redis_load_config {σ : Type} (host : Host σ) (g : Globals σ) : LoadOutcome σ :=
  match host.ast_config_load CONFIG_FILE_NAME with
  | .missing => { ret := 1, globals := g, connects := [], overrun := false }
  | .invalid => { ret := 1, globals := g, connects := [], overrun := false }
  | .loaded cfg =>
    let server :=
      match cfg.ast_variable_retrieve "general" "server" with
      | some servervalue => servervalue
      | none => "127.0.0.1"
    let port :=
      match cfg.ast_variable_retrieve "general" "ttl" with
      | some portvalue => atoi portvalue
      | none => 6379
    let redisttl :=
      match cfg.ast_variable_retrieve "general" "ttl" with
      | some ttlvalue => toUInt32 (atoi ttlvalue)
      | none => 0
    let keyprefix :=
      match cfg.ast_variable_retrieve "general" "keyprefix" with
      | some kp => kp
      | none => Globals.keyprefix g
    let over :=
      overruns 128 server ||
        (match cfg.ast_variable_retrieve "general" "keyprefix" with
         | some kp => overruns 65 kp
         | none => false)
    let redis := host.redisConnect server port
    let g1 : Globals σ := { redis := redis, keyprefix := keyprefix, redisttl := redisttl }
    match redis with
    | none => { ret := 1, globals := g1, connects := [(server, port)], overrun := over }
    | some h =>
      if host.hiredis.err h ≠ 0 then
        { ret := 1, globals := g1, connects := [(server, port)], overrun := over }
      else
        { ret := 0, globals := g1, connects := [(server, port)], overrun := over }

/-- State after `load_module`: the returned status, the outcome of the
configuration step, and the names handed to `ast_custom_function_register`. -/
structure ModuleOutcome (σ : Type) where
  ret : Int
  config : LoadOutcome σ
  registered : List String

/-- Source lines 244-255: `acf_redis` carries the name "REDIS". -/
def load_module {σ : Type} (host : Host σ) (g : Globals σ) : ModuleOutcome σ :=
  let cfg := redis_load_config host g
  let ret := cfg.ret
  let ret := Int.lor ret (host.ast_custom_function_register "REDIS")
  { ret := ret, config := cfg, registered := ["REDIS"] }

/-! ## A key-value server behind the handle -/

/-- A connection to a key-value server: the stored pairs, the error code of
the handle, and the transport result of the commands still to come (0 for
a delivered command, otherwise the error code the handle takes). -/
structure KV where
  store : List (String × String)
  err : Int
  transport : List Int
  deriving DecidableEq, Repr

/-- Value stored under `key`. -/
def KV.get (store : List (String × String)) (key : String) : Option String :=
  (store.find? (fun b => b.1 == key)).map (fun b => b.2)

/-- Store `value` under `key`. -/
def KV.set (store : List (String × String)) (key value : String) : List (String × String) :=
  (key, value) :: store.filter (fun b => b.1 != key)

/-- What the server does with a delivered command: SET stores, GET returns the
stored string or nil, anything else is answered with an error line. -/
def KV.serve (store : List (String × String)) (argv : List String) :
    List (String × String) × redisReply :=
  match argv with
  | ["GET", key] => (store, { str := KV.get store key })
  | ["SET", key, value] => (KV.set store key value, { str := some "OK" })
  | ["SET", key, value, "EX", _] => (KV.set store key value, { str := some "OK" })
  | _ => (store, { str := some "ERR unknown command" })

/-- One `redisCommand` on a `KV` connection: a handle in error stays in error
and gives NULL; a transport failure sets the error and gives NULL; otherwise
the server answers. -/
def KV.redisCommand (s : KV) (argv : List String) : KV × Option redisReply :=
  if s.err ≠ 0 then (s, none)
  else
    match s.transport with
    | e :: rest =>
      if e ≠ 0 then ({ s with err := e, transport := rest }, none)
      else
        let (store, reply) := KV.serve s.store argv
        ({ s with store := store, transport := rest }, some reply)
    | [] =>
      let (store, reply) := KV.serve s.store argv
      ({ s with store := store }, some reply)

/-- The hiredis interface over `KV` connections. -/
def kvLib : Hiredis KV :=
  { err := fun s => s.err, redisCommand := KV.redisCommand }

/-- The file-scope variables holding handle `handle`, prefix `pre` and ttl `ttl`. -/
def settings {σ : Type} (handle : Option σ) (pre : String) (ttl : Nat) : Globals σ :=
  { redis := handle, keyprefix := pre, redisttl := ttl }

/-- A healthy connection to an empty store. -/
def freshKV : KV :=
  { store := [], err := 0, transport := [] }

/-- A configuration given by its entries (category, variable, value). -/
def configOf (entries : List (String × String × String)) : ast_config :=
  { ast_variable_retrieve := fun category name =>
      (entries.find? (fun e => e.1 == category && e.2.1 == name)).map (fun e => e.2.2) }

/-- A host whose configuration file loads as `load`, whose server accepts
every connection on an empty store, and which registers every function. -/
def kvHost (load : ConfigLoad) : Host KV :=
  { hiredis := kvLib,
    ast_config_load := fun _ => load,
    redisConnect := fun _ _ => some { store := [], err := 0, transport := [] },
    ast_custom_function_register := fun _ => 0 }

/-- A key of `n` bytes. -/
def longKey (n : Nat) : String :=
  String.mk (List.replicate n 'k')

/-- A connection whose handle is in error (I/O error, code 1). -/
def brokenKV : KV :=
  { store := [], err := 1, transport := [] }

/-- A healthy connection to a store holding one pair. -/
def storedKV (key value : String) : KV :=
  { store := [(key, value)], err := 0, transport := [] }

/-! ## Facts about the host routines -/

theorem getvar_setvar (chan : ast_channel) (name value : String) :
    pbx_builtin_getvar_helper (pbx_builtin_setvar_helper chan name value) name = some value := by
  simp [pbx_builtin_getvar_helper, pbx_builtin_setvar_helper]

theorem getvar_set_operation_result (chan : ast_channel) (result : Int) :
    pbx_builtin_getvar_helper (redis_set_operation_result chan result) "REDISRESULT"
      = some (toString result) := by
  simp [redis_set_operation_result, getvar_setvar]

theorem ast_strlen_zero_some (k : String) (hk : k ≠ "") :
    ast_strlen_zero (some k) = false := by
  simp [ast_strlen_zero, hk]

/-! ## The argument guard -/

theorem redis_read_no_key {σ : Type} (lib : Hiredis σ) (g : Globals σ) (chan : ast_channel)
    (parse : Option String) (buflen : Nat) (h : ast_strlen_zero parse = true) :
    redis_read lib g chan parse buflen =
      { chan := redis_set_operation_result chan REDIS_ARGUMENT_NEEDED, redis := g.redis,
        sent := [], overrun := false, buffer := "", exit := .returned 0 } := by
  simp [redis_read, h]

theorem redis_write_no_key {σ : Type} (lib : Hiredis σ) (g : Globals σ) (chan : ast_channel)
    (parse : Option String) (value : String) (h : ast_strlen_zero parse = true) :
    redis_write lib g chan parse value =
      { chan := redis_set_operation_result (redis_set_operation_result chan REDIS_OK)
          REDIS_ARGUMENT_NEEDED,
        redis := g.redis, sent := [], overrun := false, exit := .returned 0 } := by
  simp [redis_write, h]

/-- C1: when the caller key is absent (NULL) or empty, `redis_read` and
`redis_write` both return with REDISRESULT equal to "127", hand no command to
`redisCommand` and leave the handle as it was, whatever the channel, the
prefix, the ttl and the handle are; `redis_read` leaves the output buffer empty. -/
theorem C1_argument_guard {σ : Type} (lib : Hiredis σ) (g : Globals σ) (chan : ast_channel)
    (parse : Option String) (buflen : Nat) (value : String)
    (h : parse = none ∨ parse = some "") :
    (pbx_builtin_getvar_helper (redis_read lib g chan parse buflen).chan "REDISRESULT"
        = some "127"
      ∧ (redis_read lib g chan parse buflen).sent = []
      ∧ (redis_read lib g chan parse buflen).buffer = ""
      ∧ (redis_read lib g chan parse buflen).redis = g.redis
      ∧ (redis_read lib g chan parse buflen).exit = Exit.returned 0)
    ∧ (pbx_builtin_getvar_helper (redis_write lib g chan parse value).chan "REDISRESULT"
        = some "127"
      ∧ (redis_write lib g chan parse value).sent = []
      ∧ (redis_write lib g chan parse value).redis = g.redis
      ∧ (redis_write lib g chan parse value).exit = Exit.returned 0) := by
  have hz : ast_strlen_zero parse = true := by
    rcases h with h | h <;> subst h <;> simp [ast_strlen_zero]
  have h127 : toString REDIS_ARGUMENT_NEEDED = "127" := by decide
  rw [redis_read_no_key lib g chan parse buflen hz, redis_write_no_key lib g chan parse value hz]
  simp [getvar_set_operation_result, h127]

/-- The guard at the two inputs it is about: `REDIS()` and `REDIS("")`, on a
channel that carried an older result, with a prefix and a ttl configured. -/
theorem C1_argument_guard_witness :
    ((pbx_builtin_getvar_helper
          (redis_read kvLib (settings (some freshKV) "pbx:" 60)
            [("REDISRESULT", "0")] (some "") 64).chan "REDISRESULT" = some "127"
      ∧ (redis_read kvLib (settings (some freshKV) "pbx:" 60)
            [("REDISRESULT", "0")] (some "") 64).sent = []
      ∧ (redis_read kvLib (settings (some freshKV) "pbx:" 60)
            [("REDISRESULT", "0")] (some "") 64).buffer = ""
      ∧ (redis_read kvLib (settings (some freshKV) "pbx:" 60)
            [("REDISRESULT", "0")] (some "") 64).redis = some freshKV
      ∧ (redis_read kvLib (settings (some freshKV) "pbx:" 60)
            [("REDISRESULT", "0")] (some "") 64).exit = Exit.returned 0)
    ∧ (pbx_builtin_getvar_helper
          (redis_write kvLib (settings (some freshKV) "pbx:" 60)
            [("REDISRESULT", "0")] (some "") "hello").chan "REDISRESULT" = some "127"
      ∧ (redis_write kvLib (settings (some freshKV) "pbx:" 60)
            [("REDISRESULT", "0")] (some "") "hello").sent = []
      ∧ (redis_write kvLib (settings (some freshKV) "pbx:" 60)
            [("REDISRESULT", "0")] (some "") "hello").redis = some freshKV
      ∧ (redis_write kvLib (settings (some freshKV) "pbx:" 60)
            [("REDISRESULT", "0")] (some "") "hello").exit = Exit.returned 0)) :=
  C1_argument_guard kvLib (settings (some freshKV) "pbx:" 60)
    [("REDISRESULT", "0")] (some "") 64 "hello" (Or.inr rfl)

/-! ## Calls with a key -/

/-- A prefix, a key and the terminator within `REDIS_MAX_KEY` bytes do not overrun. -/
theorem overruns_of_fit (p k : String) (hfit : p.length + k.length + 1 ≤ REDIS_MAX_KEY) :
    overruns REDIS_MAX_KEY (p ++ k) = false := by
  simp only [overruns, decide_eq_false_iff_not, String.length_append]
  omega

theorem fit_of_not_overruns (p k : String) (h : overruns REDIS_MAX_KEY (p ++ k) = false) :
    p.length + k.length + 1 ≤ REDIS_MAX_KEY := by
  simp only [overruns, decide_eq_false_iff_not, String.length_append] at h
  omega

theorem redis_read_overrun {σ : Type} (lib : Hiredis σ) (g : Globals σ)
    (chan : ast_channel) (k : String) (n : Nat) (hk : k ≠ "")
    (hov : overruns REDIS_MAX_KEY (Globals.keyprefix g ++ k) = true) :
    redis_read lib g chan (some k) n =
      { chan := chan, redis := g.redis, sent := [], overrun := true, buffer := "",
        exit := .keyOverrun } := by
  simp [redis_read, ast_strlen_zero_some k hk, composeKey, hov]

theorem redis_write_overrun {σ : Type} (lib : Hiredis σ) (g : Globals σ)
    (chan : ast_channel) (k v : String) (hk : k ≠ "")
    (hov : overruns REDIS_MAX_KEY (Globals.keyprefix g ++ k) = true) :
    redis_write lib g chan (some k) v =
      { chan := redis_set_operation_result chan REDIS_OK, redis := g.redis, sent := [],
        overrun := true, exit := .keyOverrun } := by
  simp [redis_write, ast_strlen_zero_some k hk, composeKey, hov]

theorem redis_write_sent {σ : Type} (lib : Hiredis σ) (h : σ) (p : String) (t : Nat)
    (chan : ast_channel) (k v : String) (hk : k ≠ "")
    (hfit : overruns REDIS_MAX_KEY (p ++ k) = false) :
    (redis_write lib { redis := some h, keyprefix := p, redisttl := t } chan (some k) v).sent
      = [setCommand p k v t]
    ∧ (redis_write lib { redis := some h, keyprefix := p, redisttl := t } chan (some k) v).redis
      = some (lib.redisCommand h (setCommand p k v t)).1
    ∧ (redis_write lib { redis := some h, keyprefix := p, redisttl := t } chan (some k) v).overrun
      = false
    ∧ (redis_write lib { redis := some h, keyprefix := p, redisttl := t } chan (some k) v).exit
      = Exit.returned 0 := by
  simp only [redis_write, ast_strlen_zero_some k hk, composeKey, Option.getD_some, setCommand,
    hfit]
  by_cases he : lib.err (lib.redisCommand h
      (if t > 0 then ["SET", p ++ k, v, "EX", toString t] else ["SET", p ++ k, v])).1 = 0
  · simp [he]
  · simp [he]

theorem redis_write_chan {σ : Type} (lib : Hiredis σ) (h : σ) (p : String) (t : Nat)
    (chan : ast_channel) (k v : String) (hk : k ≠ "")
    (hfit : overruns REDIS_MAX_KEY (p ++ k) = false) :
    (redis_write lib { redis := some h, keyprefix := p, redisttl := t } chan (some k) v).chan
      = if lib.err (lib.redisCommand h (setCommand p k v t)).1 = 0
        then redis_set_operation_result chan REDIS_OK
        else redis_set_operation_result (redis_set_operation_result chan REDIS_OK)
          (lib.err (lib.redisCommand h (setCommand p k v t)).1) := by
  simp only [redis_write, ast_strlen_zero_some k hk, composeKey, Option.getD_some, setCommand,
    hfit]
  by_cases he : lib.err (lib.redisCommand h
      (if t > 0 then ["SET", p ++ k, v, "EX", toString t] else ["SET", p ++ k, v])).1 = 0
  · simp [he]
  · simp [he]

theorem redis_read_sent {σ : Type} (lib : Hiredis σ) (h : σ) (p : String) (t : Nat)
    (chan : ast_channel) (k : String) (n : Nat) (hk : k ≠ "")
    (hfit : overruns REDIS_MAX_KEY (p ++ k) = false) :
    (redis_read lib { redis := some h, keyprefix := p, redisttl := t } chan (some k) n).sent
      = [["GET", p ++ k]]
    ∧ (redis_read lib { redis := some h, keyprefix := p, redisttl := t } chan (some k) n).redis
      = some (lib.redisCommand h ["GET", p ++ k]).1
    ∧ (redis_read lib { redis := some h, keyprefix := p, redisttl := t } chan (some k) n).overrun
      = false := by
  simp only [redis_read, ast_strlen_zero_some k hk, composeKey, Option.getD_some, hfit]
  by_cases he : lib.err (lib.redisCommand h ["GET", p ++ k]).1 = 0
  · cases hr : (lib.redisCommand h ["GET", p ++ k]).2.bind (fun r => r.str) <;> simp [he, hr]
  · simp [he]

theorem redis_read_error {σ : Type} (lib : Hiredis σ) (h : σ) (p : String) (t : Nat)
    (chan : ast_channel) (k : String) (n : Nat) (hk : k ≠ "")
    (hfit : overruns REDIS_MAX_KEY (p ++ k) = false)
    (he : lib.err (lib.redisCommand h ["GET", p ++ k]).1 ≠ 0) :
    (redis_read lib { redis := some h, keyprefix := p, redisttl := t } chan (some k) n).buffer = ""
    ∧ (redis_read lib { redis := some h, keyprefix := p, redisttl := t } chan (some k) n).chan
      = redis_set_operation_result chan (lib.err (lib.redisCommand h ["GET", p ++ k]).1)
    ∧ (redis_read lib { redis := some h, keyprefix := p, redisttl := t } chan (some k) n).exit
      = Exit.returned 0 := by
  simp only [redis_read, ast_strlen_zero_some k hk, composeKey, Option.getD_some, hfit]
  simp [he]

theorem redis_read_payload {σ : Type} (lib : Hiredis σ) (h : σ) (p : String) (t : Nat)
    (chan : ast_channel) (k : String) (n : Nat) (s : String) (hk : k ≠ "")
    (hfit : overruns REDIS_MAX_KEY (p ++ k) = false)
    (he : lib.err (lib.redisCommand h ["GET", p ++ k]).1 = 0)
    (hs : (lib.redisCommand h ["GET", p ++ k]).2 = some { str := some s }) :
    (redis_read lib { redis := some h, keyprefix := p, redisttl := t } chan (some k) n).buffer
      = ast_copy_string s n
    ∧ (redis_read lib { redis := some h, keyprefix := p, redisttl := t } chan (some k) n).chan
      = redis_set_operation_result chan REDIS_OK
    ∧ (redis_read lib { redis := some h, keyprefix := p, redisttl := t } chan (some k) n).exit
      = Exit.returned 0 := by
  simp only [redis_read, ast_strlen_zero_some k hk, composeKey, Option.getD_some, hfit]
  simp [he, hs]

theorem redis_read_nil {σ : Type} (lib : Hiredis σ) (h : σ) (p : String) (t : Nat)
    (chan : ast_channel) (k : String) (n : Nat) (hk : k ≠ "")
    (hfit : overruns REDIS_MAX_KEY (p ++ k) = false)
    (he : lib.err (lib.redisCommand h ["GET", p ++ k]).1 = 0)
    (hs : (lib.redisCommand h ["GET", p ++ k]).2 = some { str := none }) :
    (redis_read lib { redis := some h, keyprefix := p, redisttl := t } chan (some k) n).buffer = ""
    ∧ (redis_read lib { redis := some h, keyprefix := p, redisttl := t } chan (some k) n).chan
      = chan
    ∧ (redis_read lib { redis := some h, keyprefix := p, redisttl := t } chan (some k) n).exit
      = Exit.nullDeref := by
  simp only [redis_read, ast_strlen_zero_some k hk, composeKey, Option.getD_some, hfit]
  simp [he, hs]

theorem ast_copy_string_length (s : String) (n : Nat) (hn : 1 ≤ n) :
    (ast_copy_string s n).length + 1 ≤ n := by
  simp only [ast_copy_string, String.length_mk, List.length_take]
  omega

theorem ast_copy_string_fits (s : String) (n : Nat) (h : s.length < n) :
    ast_copy_string s n = s := by
  apply String.ext
  simp only [ast_copy_string]
  exact List.take_of_length_le (by simp only [String.length] at h; omega)

theorem longKey_ne (n : Nat) : longKey (n + 1) ≠ "" := by
  intro h
  have := congrArg String.length h
  simp [longKey, String.length] at this

theorem longKey_overruns (p : String) (n : Nat) (h : REDIS_MAX_KEY ≤ n) :
    overruns REDIS_MAX_KEY (p ++ longKey n) = true := by
  simp only [overruns, decide_eq_true_eq, String.length_append, longKey, String.length_mk,
    List.length_replicate]
  omega

/-- C2 (amended): with prefix `p` configured and a non-empty caller key `k`
whose composed key fits the key buffer (`|p| + |k| + 1 ≤ 512`), the one command
`redis_read` issues is `GET` with the key `p ++ k`, and the one command
`redis_write` issues is `SET` with that same key `p ++ k` as its first
argument: the prefix is joined to the key with nothing in between. -/
theorem C2_prefix_transparency {σ : Type} (lib : Hiredis σ) (h : σ) (p : String) (t : Nat)
    (chan : ast_channel) (k v : String) (n : Nat) (hk : k ≠ "")
    (hfit : p.length + k.length + 1 ≤ REDIS_MAX_KEY) :
    (redis_read lib { redis := some h, keyprefix := p, redisttl := t } chan (some k) n).sent
      = [["GET", p ++ k]]
    ∧ ∃ rest,
        (redis_write lib { redis := some h, keyprefix := p, redisttl := t } chan (some k) v).sent
          = ["SET" :: (p ++ k) :: rest] := by
  have hov := overruns_of_fit p k hfit
  refine ⟨(redis_read_sent lib h p t chan k n hk hov).1, ?_⟩
  rw [(redis_write_sent lib h p t chan k v hk hov).1]
  by_cases ht : t > 0
  · exact ⟨[v, "EX", toString t], by simp [setCommand, ht]⟩
  · exact ⟨[v], by simp [setCommand, ht]⟩

/-- The scenario of the specification: prefix `tenantA:` and key `foo` give
the key `tenantA:foo` on the wire, for the read and for the write. -/
theorem C2_prefix_transparency_witness :
    (redis_read kvLib (settings (some freshKV) "tenantA:" 0)
        [] (some "foo") 64).sent = [["GET", "tenantA:" ++ "foo"]]
    ∧ ∃ rest,
        (redis_write kvLib (settings (some freshKV) "tenantA:" 0)
          [] (some "foo") "bar").sent = ["SET" :: ("tenantA:" ++ "foo") :: rest] :=
  C2_prefix_transparency kvLib freshKV "tenantA:" 0 [] "foo" "bar" 64 (by decide) (by decide)

/-- C2 as stated fails for a key that does not fit: with prefix `tenantA:` and
a non-empty caller key of 512 bytes, `sprintf` runs past the key buffer and
both calls end there, with no `GET` and no `SET` carrying `p ++ k`. -/
theorem C2_long_key_counterexample :
    longKey 512 ≠ ""
    ∧ (redis_read kvLib (settings (some freshKV) "tenantA:" 0) [] (some (longKey 512)) 64).sent
        ≠ [["GET", "tenantA:" ++ longKey 512]]
    ∧ (redis_read kvLib (settings (some freshKV) "tenantA:" 0) [] (some (longKey 512)) 64).exit
        = Exit.keyOverrun
    ∧ (redis_write kvLib (settings (some freshKV) "tenantA:" 0) [] (some (longKey 512))
        "bar").sent = []
    ∧ (redis_write kvLib (settings (some freshKV) "tenantA:" 0) [] (some (longKey 512))
        "bar").exit = Exit.keyOverrun := by
  have hk : longKey 512 ≠ "" := longKey_ne 511
  have hov : overruns REDIS_MAX_KEY
      (Globals.keyprefix (settings (some freshKV) "tenantA:" 0) ++ longKey 512) = true :=
    longKey_overruns "tenantA:" 512 (by decide)
  rw [redis_read_overrun kvLib _ [] (longKey 512) 64 hk hov,
    redis_write_overrun kvLib _ [] (longKey 512) "bar" hk hov]
  exact ⟨hk, by simp, rfl, rfl, rfl⟩

/-- C3 (amended): for a non-empty key `k` whose composed key fits the key
buffer (`|p| + |k| + 1 ≤ 512`), a value `v` and a configured ttl `t`,
`redis_write` hands exactly one command to `redisCommand`: `SET p++k v EX t`
when `t > 0`, and `SET p++k v` without an EX clause when `t = 0`. -/
theorem C3_ttl_selection {σ : Type} (lib : Hiredis σ) (h : σ) (p : String) (t : Nat)
    (chan : ast_channel) (k v : String) (hk : k ≠ "")
    (hfit : p.length + k.length + 1 ≤ REDIS_MAX_KEY) :
    (0 < t →
      (redis_write lib { redis := some h, keyprefix := p, redisttl := t } chan (some k) v).sent
        = [["SET", p ++ k, v, "EX", toString t]])
    ∧ (t = 0 →
      (redis_write lib { redis := some h, keyprefix := p, redisttl := t } chan (some k) v).sent
        = [["SET", p ++ k, v]]) := by
  rw [(redis_write_sent lib h p t chan k v hk (overruns_of_fit p k hfit)).1]
  constructor
  · intro ht
    simp [setCommand, ht]
  · intro ht
    simp [setCommand, ht]

/-- A ttl of two seconds puts `EX 2` on the command. -/
theorem C3_ttl_selection_witness :
    (redis_write kvLib (settings (some freshKV) "" 2)
        [] (some "x") "y").sent = [["SET", "" ++ "x", "y", "EX", toString 2]] :=
  (C3_ttl_selection kvLib freshKV "" 2 [] "x" "y" (by decide) (by decide)).1 (by decide)

/-- C3 as stated fails for a key that does not fit: with ttl 2 and a non-empty
key of 600 bytes, `redis_write` ends in the overrun of the key buffer and has
handed no command to `redisCommand`, where the claim has `SET k y EX 2`. -/
theorem C3_long_key_counterexample :
    longKey 600 ≠ ""
    ∧ (redis_write kvLib (settings (some freshKV) "" 2) [] (some (longKey 600)) "y").sent = []
    ∧ (redis_write kvLib (settings (some freshKV) "" 2) [] (some (longKey 600)) "y").sent
        ≠ [["SET", "" ++ longKey 600, "y", "EX", toString 2]]
    ∧ (redis_write kvLib (settings (some freshKV) "" 2) [] (some (longKey 600)) "y").exit
        = Exit.keyOverrun := by
  have hk : longKey 600 ≠ "" := longKey_ne 599
  have hov : overruns REDIS_MAX_KEY
      (Globals.keyprefix (settings (some freshKV) "" 2) ++ longKey 600) = true :=
    longKey_overruns "" 600 (by decide)
  rw [redis_write_overrun kvLib _ [] (longKey 600) "y" hk hov]
  exact ⟨hk, rfl, by simp, rfl⟩

/-- C6 (amended): for a non-empty key whose composed key fits the key buffer
(`|p| + |k| + 1 ≤ 512`) and an output buffer of `n ≥ 1` bytes: when the handle
reports an error after the GET, `redis_read` returns with the empty string in
the buffer; when it reports none and the reply carries the string `s`, it
returns with the first `min |s| (n-1)` bytes of `s` in the buffer; and in
every case the content and its terminator take at most `n` bytes. -/
theorem C6_read_output {σ : Type} (lib : Hiredis σ) (h : σ) (p : String) (t : Nat)
    (chan : ast_channel) (k : String) (n : Nat) (hk : k ≠ "")
    (hfit : p.length + k.length + 1 ≤ REDIS_MAX_KEY) (hn : 1 ≤ n) :
    (lib.err (lib.redisCommand h ["GET", p ++ k]).1 ≠ 0 →
      (redis_read lib { redis := some h, keyprefix := p, redisttl := t } chan (some k) n).buffer
        = ""
      ∧ (redis_read lib { redis := some h, keyprefix := p, redisttl := t } chan (some k) n).exit
        = Exit.returned 0)
    ∧ (∀ s, lib.err (lib.redisCommand h ["GET", p ++ k]).1 = 0 →
        (lib.redisCommand h ["GET", p ++ k]).2 = some { str := some s } →
        (redis_read lib { redis := some h, keyprefix := p, redisttl := t } chan (some k) n).buffer
          = String.mk (s.data.take (min s.length (n - 1)))
        ∧ (redis_read lib { redis := some h, keyprefix := p, redisttl := t } chan (some k) n).exit
          = Exit.returned 0)
    ∧ (redis_read lib { redis := some h, keyprefix := p, redisttl := t } chan (some k) n
        ).buffer.length + 1 ≤ n := by
  have hov := overruns_of_fit p k hfit
  refine ⟨fun he => ⟨(redis_read_error lib h p t chan k n hk hov he).1,
    (redis_read_error lib h p t chan k n hk hov he).2.2⟩, ?_, ?_⟩
  · intro s he hs
    refine ⟨?_, (redis_read_payload lib h p t chan k n s hk hov he hs).2.2⟩
    rw [(redis_read_payload lib h p t chan k n s hk hov he hs).1, ast_copy_string]
    congr 1
    simp only [String.length]
    rcases Nat.le_total s.data.length (n - 1) with hl | hl
    · rw [Nat.min_eq_left hl, List.take_of_length_le hl, List.take_of_length_le (le_refl _)]
    · rw [Nat.min_eq_right hl]
  · by_cases he : lib.err (lib.redisCommand h ["GET", p ++ k]).1 = 0
    · cases hr : (lib.redisCommand h ["GET", p ++ k]).2.bind (fun r => r.str) with
      | none =>
        simp only [redis_read, ast_strlen_zero_some k hk, composeKey, Option.getD_some, hov]
        simp [he, hr]
        exact hn
      | some s =>
        simp only [redis_read, ast_strlen_zero_some k hk, composeKey, Option.getD_some, hov]
        simp only [he, hr]
        simpa using ast_copy_string_length s n hn
    · rw [(redis_read_error lib h p t chan k n hk hov he).1]
      simpa using hn

/-- The reply to `GET wrtest` is `hello`; a buffer of four bytes keeps `hel`. -/
theorem C6_read_output_witness :
    ((redis_read kvLib (settings (some (storedKV "wrtest" "hello")) "" 0) []
        (some "wrtest") 4).buffer = String.mk ("hello".data.take (min "hello".length (4 - 1)))
      ∧ (redis_read kvLib (settings (some (storedKV "wrtest" "hello")) "" 0) []
        (some "wrtest") 4).exit = Exit.returned 0)
    ∧ (redis_read kvLib (settings (some (storedKV "wrtest" "hello")) "" 0) []
        (some "wrtest") 4).buffer.length + 1 ≤ 4 :=
  ⟨(C6_read_output kvLib (storedKV "wrtest" "hello") "" 0 [] "wrtest" 4
      (by decide) (by decide) (by decide)).2.1 "hello" (by decide) (by decide),
   (C6_read_output kvLib (storedKV "wrtest" "hello") "" 0 [] "wrtest" 4
      (by decide) (by decide) (by decide)).2.2⟩

/-- C6 as stated fails for a key that does not fit: on a handle in error, which
reports its error after any command, a `redis_read` of a non-empty key of 512
bytes into a buffer of 64 bytes does not return the empty string: it ends in
the overrun of the key buffer. -/
theorem C6_long_key_counterexample :
    longKey 512 ≠ ""
    ∧ kvLib.err (kvLib.redisCommand brokenKV ["GET", "" ++ longKey 512]).1 ≠ 0
    ∧ (redis_read kvLib (settings (some brokenKV) "" 0) [] (some (longKey 512)) 64).exit
        = Exit.keyOverrun
    ∧ (redis_read kvLib (settings (some brokenKV) "" 0) [] (some (longKey 512)) 64).exit
        ≠ Exit.returned 0 := by
  have hk : longKey 512 ≠ "" := longKey_ne 511
  have hov : overruns REDIS_MAX_KEY
      (Globals.keyprefix (settings (some brokenKV) "" 0) ++ longKey 512) = true :=
    longKey_overruns "" 512 (by decide)
  rw [redis_read_overrun kvLib _ [] (longKey 512) 64 hk hov]
  refine ⟨hk, ?_, rfl, by simp⟩
  simp [kvLib, KV.redisCommand, brokenKV]

/-! ## The key-value server -/

theorem KV.get_set (store : List (String × String)) (key value : String) :
    KV.get (KV.set store key value) key = some value := by
  simp [KV.get, KV.set]

theorem KV.serve_set (store : List (String × String)) (p k v : String) (t : Nat) :
    (KV.serve store (setCommand p k v t)).1 = KV.set store (p ++ k) v := by
  by_cases ht : t > 0
  · simp [setCommand, ht, KV.serve]
  · simp [setCommand, ht, KV.serve]

theorem KV.serve_get (store : List (String × String)) (key : String) :
    KV.serve store ["GET", key] = (store, { str := KV.get store key }) := by
  simp [KV.serve]

/-- A command after which the handle reports no error was delivered and served. -/
theorem KV.redisCommand_ok (s : KV) (argv : List String)
    (h : (KV.redisCommand s argv).1.err = 0) :
    (KV.redisCommand s argv).1.store = (KV.serve s.store argv).1
    ∧ (KV.redisCommand s argv).2 = some (KV.serve s.store argv).2 := by
  unfold KV.redisCommand at h ⊢
  by_cases he : s.err = 0
  · cases htr : s.transport with
    | nil => simp [he]
    | cons e rest =>
      by_cases h0 : e = 0
      · simp [he, h0]
      · simp [he, htr, h0] at h
  · simp [he] at h

/-- C5: over the key-value server `kvLib`, for every prefix `p`, ttl `t`,
non-empty key `k` and value `v` shorter than the output buffer: if
`redis_write (k, v)` returns and leaves the handle `s1` without error, and the
`redis_read (k)` that follows on `s1` leaves its handle `s2` without error,
then the composed key was within the key buffer, the write reported
REDISRESULT "0", and the read returns with exactly `v` in the output buffer
and REDISRESULT "0". -/
theorem C5_round_trip (s s1 s2 : KV) (p : String) (t : Nat) (chan chan2 : ast_channel)
    (k v : String) (n : Nat) (hk : k ≠ "") (hfit : v.length < n)
    (hwx : (redis_write kvLib { redis := some s, keyprefix := p, redisttl := t }
            chan (some k) v).exit = Exit.returned 0)
    (hw : (redis_write kvLib { redis := some s, keyprefix := p, redisttl := t }
            chan (some k) v).redis = some s1)
    (hw0 : kvLib.err s1 = 0)
    (hr : (redis_read kvLib { redis := some s1, keyprefix := p, redisttl := t }
            chan2 (some k) n).redis = some s2)
    (hr0 : kvLib.err s2 = 0) :
    (redis_write kvLib { redis := some s, keyprefix := p, redisttl := t }
        chan (some k) v).overrun = false
    ∧ pbx_builtin_getvar_helper
        (redis_write kvLib { redis := some s, keyprefix := p, redisttl := t }
          chan (some k) v).chan "REDISRESULT" = some "0"
    ∧ (redis_read kvLib { redis := some s1, keyprefix := p, redisttl := t }
          chan2 (some k) n).buffer = v
    ∧ pbx_builtin_getvar_helper
        (redis_read kvLib { redis := some s1, keyprefix := p, redisttl := t }
          chan2 (some k) n).chan "REDISRESULT" = some "0"
    ∧ (redis_read kvLib { redis := some s1, keyprefix := p, redisttl := t }
          chan2 (some k) n).exit = Exit.returned 0 := by
  have h0 : toString REDIS_OK = "0" := by decide
  -- a write that returned has composed a key within the buffer
  have hov : overruns REDIS_MAX_KEY (p ++ k) = false := by
    cases hc : overruns REDIS_MAX_KEY (p ++ k) with
    | false => rfl
    | true =>
      rw [redis_write_overrun kvLib _ chan k v hk hc] at hwx
      simp at hwx
  -- the write
  rw [(redis_write_sent kvLib s p t chan k v hk hov).2.1] at hw
  have hs1 : (kvLib.redisCommand s (setCommand p k v t)).1 = s1 := Option.some.inj hw
  have hw1 : kvLib.err (kvLib.redisCommand s (setCommand p k v t)).1 = 0 := by
    rw [hs1]; exact hw0
  have hstore : s1.store = KV.set s.store (p ++ k) v := by
    rw [← hs1, ← KV.serve_set s.store p k v t]
    exact (KV.redisCommand_ok s (setCommand p k v t) hw1).1
  -- the read
  rw [(redis_read_sent kvLib s1 p t chan2 k n hk hov).2.1] at hr
  have hs2 : (kvLib.redisCommand s1 ["GET", p ++ k]).1 = s2 := Option.some.inj hr
  have hr1 : kvLib.err (kvLib.redisCommand s1 ["GET", p ++ k]).1 = 0 := by
    rw [hs2]; exact hr0
  have hreply : (kvLib.redisCommand s1 ["GET", p ++ k]).2 = some { str := some v } := by
    have := (KV.redisCommand_ok s1 ["GET", p ++ k] hr1).2
    rw [KV.serve_get, hstore, KV.get_set] at this
    exact this
  obtain ⟨hb, hc, hx⟩ := redis_read_payload kvLib s1 p t chan2 k n v hk hov hr1 hreply
  refine ⟨(redis_write_sent kvLib s p t chan k v hk hov).2.2.1, ?_, ?_, ?_, hx⟩
  · rw [redis_write_chan kvLib s p t chan k v hk hov, if_pos hw1, getvar_set_operation_result,
      h0]
  · rw [hb, ast_copy_string_fits v n hfit]
  · rw [hc, getvar_set_operation_result, h0]

/-- The write/read test of the source comment: `REDIS(wrtest)=hello`, then
`REDIS(wrtest)`, on a fresh connection to an empty store. -/
theorem C5_round_trip_witness :
    (redis_write kvLib (settings (some freshKV) "" 0) [] (some "wrtest") "hello").overrun
      = false
    ∧ pbx_builtin_getvar_helper
        (redis_write kvLib (settings (some freshKV) "" 0) [] (some "wrtest") "hello").chan
        "REDISRESULT" = some "0"
    ∧ (redis_read kvLib (settings (some (storedKV "wrtest" "hello")) "" 0) []
          (some "wrtest") 64).buffer = "hello"
    ∧ pbx_builtin_getvar_helper
        (redis_read kvLib (settings (some (storedKV "wrtest" "hello")) "" 0) []
          (some "wrtest") 64).chan "REDISRESULT" = some "0"
    ∧ (redis_read kvLib (settings (some (storedKV "wrtest" "hello")) "" 0) []
          (some "wrtest") 64).exit = Exit.returned 0 :=
  C5_round_trip freshKV (storedKV "wrtest" "hello") (storedKV "wrtest" "hello")
    "" 0 [] [] "wrtest" "hello" 64 (by decide) (by decide) (by decide)
    (by decide) (by decide) (by decide) (by decide)

/-- C4: a `redis_read` of a key the server does not hold (here `x`, expired)
ends in a read through the NULL `str` of the nil reply before REDISRESULT is
written: the handle reports no error after the GET, yet the channel still
carries the "1" of an earlier call instead of "0". -/
theorem C4_result_not_reported_on_nil_reply :
    kvLib.err (kvLib.redisCommand freshKV ["GET", "x"]).1 = 0
    ∧ (redis_read kvLib (settings (some freshKV) "" 2) [("REDISRESULT", "1")]
        (some "x") 64).exit = Exit.nullDeref
    ∧ pbx_builtin_getvar_helper
        (redis_read kvLib (settings (some freshKV) "" 2) [("REDISRESULT", "1")]
          (some "x") 64).chan "REDISRESULT" = some "1" := by
  decide

/-- C7: for the key `missing`, which the server answers with a nil reply and
no error, `redis_read` hands `reply->str`, a NULL pointer, to
`ast_copy_string` and ends there: it does not return, and REDISRESULT is not
set. -/
theorem C7_nil_reply_dereferenced :
    kvLib.redisCommand freshKV ["GET", "pbx:" ++ "missing"] = (freshKV, some { str := none })
    ∧ (redis_read kvLib (settings (some freshKV) "pbx:" 0) [] (some "missing") 64).exit
        = Exit.nullDeref
    ∧ pbx_builtin_getvar_helper
        (redis_read kvLib (settings (some freshKV) "pbx:" 0) [] (some "missing") 64).chan
        "REDISRESULT" = none := by
  decide

/-- C8: the port handed to `redisConnect` is read from the option `ttl`.
With `port=6380` and no `ttl` the module connects to port 6379; adding
`ttl=30` to the same file moves the connection to port 30. The host, the ttl
and the prefix are taken from their own options. -/
theorem C8_port_read_from_ttl :
    (redis_load_config
        (kvHost (.loaded (configOf [("general", "server", "redis.example"),
          ("general", "port", "6380"), ("general", "keyprefix", "pbx:")])))
        (settings none "" 0)).connects = [("redis.example", 6379)]
    ∧ (redis_load_config
        (kvHost (.loaded (configOf [("general", "server", "redis.example"),
          ("general", "port", "6380"), ("general", "keyprefix", "pbx:"),
          ("general", "ttl", "30")])))
        (settings none "" 0)).connects = [("redis.example", 30)]
    ∧ (redis_load_config
        (kvHost (.loaded (configOf [("general", "server", "redis.example"),
          ("general", "port", "6380"), ("general", "keyprefix", "pbx:"),
          ("general", "ttl", "30")])))
        (settings none "" 0)).globals.redisttl = 30
    ∧ Globals.keyprefix (redis_load_config
        (kvHost (.loaded (configOf [("general", "server", "redis.example"),
          ("general", "port", "6380"), ("general", "keyprefix", "pbx:"),
          ("general", "ttl", "30")])))
        (settings none "" 0)).globals = "pbx:" := by
  decide

/-- C9: when the configuration file is missing, `redis_load_config` returns 1
without connecting, and `load_module` still calls
`ast_custom_function_register` for `REDIS`; it returns 1 with the function
registered and no handle behind it. -/
theorem C9_registers_after_failed_config :
    (redis_load_config (kvHost .missing) (settings none "" 0)).ret = 1
    ∧ (load_module (kvHost .missing) (settings none "" 0)).ret = 1
    ∧ (load_module (kvHost .missing) (settings none "" 0)).registered = ["REDIS"]
    ∧ (load_module (kvHost .missing) (settings none "" 0)).config.connects = []
    ∧ (load_module (kvHost .missing) (settings none "" 0)).config.globals.redis = none := by
  decide

/-- C10: with the prefix `pbx:` and a caller key of 512 bytes, the composed key
does not fit the 512 bytes allocated for it. Neither call rejects it with an
argument error: `redis_write` and `redis_read` run `sprintf` past the
allocation and end there, REDISRESULT being "0" for the write (set on entry)
and untouched for the read, not "127". -/
theorem C10_long_key_not_rejected :
    (redis_write kvLib (settings (some freshKV) "pbx:" 0) [] (some (longKey 512)) "v").overrun
      = true
    ∧ (redis_write kvLib (settings (some freshKV) "pbx:" 0) [] (some (longKey 512)) "v").exit
      = Exit.keyOverrun
    ∧ pbx_builtin_getvar_helper
        (redis_write kvLib (settings (some freshKV) "pbx:" 0) [] (some (longKey 512)) "v").chan
        "REDISRESULT" = some "0"
    ∧ (redis_read kvLib (settings (some (storedKV ("pbx:" ++ longKey 512) "v")) "pbx:" 0) []
        (some (longKey 512)) 64).overrun = true
    ∧ (redis_read kvLib (settings (some (storedKV ("pbx:" ++ longKey 512) "v")) "pbx:" 0) []
        (some (longKey 512)) 64).exit = Exit.keyOverrun
    ∧ pbx_builtin_getvar_helper
        (redis_read kvLib (settings (some (storedKV ("pbx:" ++ longKey 512) "v")) "pbx:" 0) []
          (some (longKey 512)) 64).chan "REDISRESULT" = none := by
  have hk : longKey 512 ≠ "" := longKey_ne 511
  have hov : ∀ h : Option KV, overruns REDIS_MAX_KEY
      (Globals.keyprefix (settings h "pbx:" 0) ++ longKey 512) = true :=
    fun _ => longKey_overruns "pbx:" 512 (by decide)
  have h0 : toString REDIS_OK = "0" := by decide
  rw [redis_write_overrun kvLib _ [] (longKey 512) "v" hk (hov _),
    redis_read_overrun kvLib _ [] (longKey 512) 64 hk (hov _)]
  refine ⟨rfl, rfl, ?_, rfl, rfl, rfl⟩
  rw [getvar_set_operation_result, h0]

end ResRedis
